import Mathlib

/-!
# Vertices tutorial (src/src/main.cpp): a shallow embedding

The program is a linear sequence of Direct3D 9 and Win32 API calls.  The
embedding makes the environment explicit:

* the three process-wide handles are fields of `State`; a pointer is a natural
  number and `0` is `nullptr`;
* every API call goes through `invoke`, which appends the call (with its
  arguments) to `State.log` and asks the backend for the reply; the backend is
  an arbitrary function of its own state and of the call, so every outcome of
  every call is covered;
* a method call through a null interface pointer, and a `memcpy` to a null
  destination, have no defined behaviour: the embedded functions return `none`
  there;
* the program never calls its window procedure itself: the system does, from
  inside `PeekMessage` (messages sent to the window) and from inside
  `DispatchMessage` (the calls nested in `DefWindowProc` included); a script
  gives, for every iteration of the message loop, what `PeekMessage` retrieves
  (`none` when no message is pending) and which messages the system passes to
  the window procedure meanwhile;
* `State.entered` is a ghost trace of the functions of the program that were
  entered; it is never read by the program.
-/

namespace Vertices

/-! ## Constants of the Windows and Direct3D 9 headers -/

/-- HRESULT of success. -/
def S_OK : Int := 0

/-- HRESULT 0x80004005 read as a signed 32-bit value. -/
def E_FAIL : Int := 0x80004005 - 2 ^ 32

/-- FAILED(hr) is hr < 0. -/
def FAILED (hr : Int) : Bool := decide (hr < 0)

/-- SUCCEEDED(hr) is hr >= 0. -/
def SUCCEEDED (hr : Int) : Bool := decide (0 ≤ hr)

def D3D_SDK_VERSION : Nat := 32
def D3DADAPTER_DEFAULT : Nat := 0
def D3DDEVTYPE_HAL : Nat := 1
def D3DCREATE_SOFTWARE_VERTEXPROCESSING : Nat := 0x20
def D3DSWAPEFFECT_DISCARD : Nat := 1
def D3DFMT_UNKNOWN : Nat := 0
def D3DFVF_XYZRHW : Nat := 0x004
def D3DFVF_DIFFUSE : Nat := 0x040
def D3DPOOL_DEFAULT : Nat := 0
def D3DCLEAR_TARGET : Nat := 1
def D3DPT_TRIANGLELIST : Nat := 4
def TRUE : Nat := 1
def WM_DESTROY : Nat := 0x0002
def WM_QUIT : Nat := 0x0012
def PM_REMOVE : Nat := 1
def SW_SHOWDEFAULT : Nat := 10
def CS_CLASSDC : Nat := 0x0040
def WS_OVERLAPPEDWINDOW : Nat := 0x00CF0000

/-- D3DCOLOR_XRGB(r,g,b) is D3DCOLOR_ARGB(0xff,r,g,b): the four bytes packed. -/
def D3DCOLOR_XRGB (r g b : Nat) : Nat :=
  (((0xff &&& 0xff) <<< 24) ||| ((r &&& 0xff) <<< 16) ||| ((g &&& 0xff) <<< 8) ||| (b &&& 0xff))
    % 2 ^ 32

/-- IEEE-754 binary32 bit patterns of the FLOAT literals of the source. -/
def f_150_0 : Nat := 0x43160000
def f_250_0 : Nat := 0x437A0000
def f_50_0 : Nat := 0x42480000
def f_0_5 : Nat := 0x3F000000
def f_1_0 : Nat := 0x3F800000

def class_name : String := "D3D Tutorial"
def window_title : String := "D3D Tutorial 02: Vertices"
def icon_name : String := "MAINICON"

/-! ## Data model -/

/-- A structure for our custom vertex type: FLOAT x, y, z, rhw; DWORD color.
The FLOAT fields hold binary32 bit patterns. -/
structure CUSTOMVERTEX where
  x : Nat
  y : Nat
  z : Nat
  rhw : Nat
  color : Nat
  deriving DecidableEq, Repr

/-- Size and alignment in bytes of FLOAT (float) and of DWORD (unsigned long)
on Windows. -/
def sizeof_FLOAT : Nat := 4
def alignof_FLOAT : Nat := 4
def sizeof_DWORD : Nat := 4
def alignof_DWORD : Nat := 4

/-- Round an offset up to a multiple of the alignment. -/
def align_up (off al : Nat) : Nat := (off + al - 1) / al * al

/-- Layout of a plain struct: every field (size, alignment) is placed at the next
offset aligned for it, and the size is rounded up to the largest alignment. -/
def sizeof_struct (fields : List (Nat × Nat)) : Nat :=
  align_up (fields.foldl (fun off f => align_up off f.2 + f.1) 0)
    (fields.foldl (fun al f => max al f.2) 1)

/-- The fields of CUSTOMVERTEX in declaration order. -/
def CUSTOMVERTEX_fields : List (Nat × Nat) :=
  [(sizeof_FLOAT, alignof_FLOAT), (sizeof_FLOAT, alignof_FLOAT), (sizeof_FLOAT, alignof_FLOAT),
   (sizeof_FLOAT, alignof_FLOAT), (sizeof_DWORD, alignof_DWORD)]

/-- The value of sizeof(CUSTOMVERTEX). -/
def sizeof_CUSTOMVERTEX : Nat := sizeof_struct CUSTOMVERTEX_fields

/-- Our custom FVF, which describes our custom vertex structure. -/
def D3DFVF_CUSTOMVERTEX : Nat := D3DFVF_XYZRHW ||| D3DFVF_DIFFUSE

/-- The three vertices of init_vb. -/
def vertices : List CUSTOMVERTEX :=
  [ { x := f_150_0, y := f_50_0, z := f_0_5, rhw := f_1_0, color := 0xffff0000 },
    { x := f_250_0, y := f_250_0, z := f_0_5, rhw := f_1_0, color := 0xff00ff00 },
    { x := f_50_0, y := f_250_0, z := f_0_5, rhw := f_1_0, color := 0xff00ffff } ]

/-- The value of sizeof(vertices), a std::array of three CUSTOMVERTEX. -/
def sizeof_vertices : Nat := vertices.length * sizeof_CUSTOMVERTEX

/-- D3DPRESENT_PARAMETERS, with the fields of d3d9types.h. -/
structure D3DPRESENT_PARAMETERS where
  BackBufferWidth : Nat := 0
  BackBufferHeight : Nat := 0
  BackBufferFormat : Nat := 0
  BackBufferCount : Nat := 0
  MultiSampleType : Nat := 0
  MultiSampleQuality : Nat := 0
  SwapEffect : Nat := 0
  hDeviceWindow : Nat := 0
  Windowed : Nat := 0
  EnableAutoDepthStencil : Nat := 0
  AutoDepthStencilFormat : Nat := 0
  Flags : Nat := 0
  FullScreen_RefreshRateInHz : Nat := 0
  PresentationInterval : Nat := 0
  deriving DecidableEq, Repr

/-- The message structure of the message loop. -/
structure MSG where
  hwnd : Nat := 0
  message : Nat := 0
  wParam : Nat := 0
  lParam : Nat := 0
  deriving DecidableEq, Repr

/-- What the system does in one iteration of the message loop: the messages
it passes to the window procedure from inside PeekMessage, what PeekMessage
retrieves (none: it returns FALSE and leaves msg as it is), and the messages it
passes to the window procedure from inside DispatchMessage, those passed from
inside a nested DefWindowProc included, in the order the procedure is entered
(unused when nothing is retrieved, as DispatchMessage is not called then). -/
structure Poll where
  sent : List MSG := []
  retrieved : Option MSG := none
  delivered : List MSG := []
  deriving DecidableEq, Repr

/-- The three resources of the program. -/
inductive Resource where
  | vertex_buffer
  | device
  | factory
  deriving DecidableEq, Repr

/-- An API call together with its arguments; self is the interface pointer a
method is called through. -/
inductive Call where
  | Direct3DCreate9 (SDKVersion : Nat)
  | CreateDevice (self Adapter DeviceType hFocusWindow BehaviorFlags : Nat)
      (pp : D3DPRESENT_PARAMETERS)
  | CreateVertexBuffer (self Length Usage FVF Pool pSharedHandle : Nat)
  | Lock (self OffsetToLock SizeToLock Flags : Nat)
  | memcpy (dest : Nat) (src : List CUSTOMVERTEX) (count : Nat)
  | Unlock (self : Nat)
  | Release (which : Resource) (self : Nat)
  | Clear (self Count pRects Flags Color Z Stencil : Nat)
  | BeginScene (self : Nat)
  | SetStreamSource (self StreamNumber pStreamData OffsetInBytes Stride : Nat)
  | SetFVF (self FVF : Nat)
  | DrawPrimitive (self PrimitiveType StartVertex PrimitiveCount : Nat)
  | EndScene (self : Nat)
  | Present (self pSourceRect pDestRect hDestWindowOverride pDirtyRegion : Nat)
  | GetModuleHandle (lpModuleName : Nat)
  | LoadIcon (hInstance : Nat) (name : String)
  | RegisterClassEx (style cbClsExtra cbWndExtra hInstance hIcon : Nat) (lpszClassName : String)
  | CreateWindow (lpClassName lpWindowName : String)
      (dwStyle x y nWidth nHeight hWndParent hMenu hInstance lpParam : Nat)
  | ShowWindow (hWnd nCmdShow : Nat)
  | UpdateWindow (hWnd : Nat)
  | PeekMessage (hWnd wMsgFilterMin wMsgFilterMax wRemoveMsg : Nat)
  | TranslateMessage (msg : MSG)
  | DispatchMessage (msg : MSG)
  | PostQuitMessage (nExitCode : Int)
  | DefWindowProc (hWnd msg wParam lParam : Nat)
  | UnregisterClass (lpClassName : String) (hInstance : Nat)
  deriving DecidableEq, Repr

/-- What a call gives back: its integer result (an HRESULT for the Direct3D
methods) and the pointer it produces, if any: the pointer returned (none is
nullptr) or the value stored through the out-parameter (none leaves the
out-parameter untouched). -/
structure Reply where
  hr : Int
  ptr : Option Nat
  deriving DecidableEq, Repr

/-- The functions of the program, for the ghost trace. -/
inductive Fn where
  | init_d3_d
  | init_vb
  | cleanup
  | render
  | msg_proc
  | message_loop
  deriving DecidableEq, Repr

/-- The backend: from its state and a call, the reply and its next state. -/
abbrev Backend (β : Type) : Type := β → Call → Reply × β

/-- The process: the three global handles, the backend, the calls recorded so
far, and the ghost trace of the functions entered. -/
structure State (β : Type) where
  g_p_d3_d : Nat
  g_pd3d_device : Nat
  g_p_vb : Nat
  backend : β
  log : List Call
  entered : List Fn

variable {β : Type}

/-- Make one API call: record it and take the reply of the backend. -/
def invoke (B : Backend β) (c : Call) (s : State β) : Reply × State β :=
  ((B s.backend c).1, { s with backend := (B s.backend c).2, log := s.log ++ [c] })

/-- A call that dereferences the pointer p: undefined when p is null. -/
def deref (B : Backend β) (p : Nat) (c : Call) (s : State β) : Option (Reply × State β) :=
  if p = 0 then none else some (invoke B c s)

/-- Ghost: note that a function of the program is entered. -/
def enter (f : Fn) (s : State β) : State β :=
  { s with entered := s.entered ++ [f] }

/-! ## The functions of main.cpp -/

/-- The function init_d3_d(hWnd): initializes Direct3D. -/
def init_d3_d (B : Backend β) (hWnd : Nat) (s : State β) : Option (Int × State β) :=
  let s0 := enter Fn.init_d3_d s
  -- Create the D3D object.
  let r1 := invoke B (Call.Direct3DCreate9 D3D_SDK_VERSION) s0
  let s1 : State β := { r1.2 with g_p_d3_d := r1.1.ptr.getD 0 }
  if s1.g_p_d3_d = 0 then some (E_FAIL, s1)
  else
    -- Set up the structure used to create the D3DDevice
    let d3dpp : D3DPRESENT_PARAMETERS :=
      { Windowed := TRUE, SwapEffect := D3DSWAPEFFECT_DISCARD, BackBufferFormat := D3DFMT_UNKNOWN }
    -- Create the D3DDevice
    match deref B s1.g_p_d3_d
        (Call.CreateDevice s1.g_p_d3_d D3DADAPTER_DEFAULT D3DDEVTYPE_HAL hWnd
          D3DCREATE_SOFTWARE_VERTEXPROCESSING d3dpp) s1 with
    | none => none
    | some r2 =>
      let s2 : State β := { r2.2 with g_pd3d_device := r2.1.ptr.getD r2.2.g_pd3d_device }
      if FAILED r2.1.hr then some (E_FAIL, s2) else some (S_OK, s2)

/-- The function init_vb(): creates a vertex buffer and fills it with our
vertices. -/
def init_vb (B : Backend β) (s : State β) : Option (Int × State β) :=
  let s0 := enter Fn.init_vb s
  match deref B s0.g_pd3d_device
      (Call.CreateVertexBuffer s0.g_pd3d_device (3 * sizeof_CUSTOMVERTEX) 0 D3DFVF_CUSTOMVERTEX
        D3DPOOL_DEFAULT 0) s0 with
  | none => none
  | some r1 =>
    let s1 : State β := { r1.2 with g_p_vb := r1.1.ptr.getD r1.2.g_p_vb }
    if FAILED r1.1.hr then some (E_FAIL, s1)
    else
      match deref B s1.g_p_vb (Call.Lock s1.g_p_vb 0 sizeof_vertices 0) s1 with
      | none => none
      | some r2 =>
        -- p_vertices is an uninitialised local: 0 stands for its value when
        -- Lock stores nothing
        let p_vertices := r2.1.ptr.getD 0
        if FAILED r2.1.hr then some (E_FAIL, r2.2)
        else
          match deref B p_vertices (Call.memcpy p_vertices vertices sizeof_vertices) r2.2 with
          | none => none
          | some r3 =>
            match deref B r3.2.g_p_vb (Call.Unlock r3.2.g_p_vb) r3.2 with
            | none => none
            | some r4 => some (S_OK, r4.2)

/-- The function cleanup(): releases all previously initialized objects. -/
def cleanup (B : Backend β) (s : State β) : Option (State β) :=
  let s0 := enter Fn.cleanup s
  let o1 : Option (State β) :=
    if s0.g_p_vb ≠ 0 then
      (deref B s0.g_p_vb (Call.Release Resource.vertex_buffer s0.g_p_vb) s0).map Prod.snd
    else some s0
  o1.bind fun s1 =>
    let o2 : Option (State β) :=
      if s1.g_pd3d_device ≠ 0 then
        (deref B s1.g_pd3d_device (Call.Release Resource.device s1.g_pd3d_device) s1).map Prod.snd
      else some s1
    o2.bind fun s2 =>
      if s2.g_p_d3_d ≠ 0 then
        (deref B s2.g_p_d3_d (Call.Release Resource.factory s2.g_p_d3_d) s2).map Prod.snd
      else some s2

/-- The function render(): draws the scene. -/
def render (B : Backend β) (s : State β) : Option (State β) :=
  let s0 := enter Fn.render s
  let dev := s0.g_pd3d_device
  -- Clear the backbuffer to a blue color
  (deref B dev (Call.Clear dev 0 0 D3DCLEAR_TARGET (D3DCOLOR_XRGB 0 0 255) f_1_0 0) s0).bind fun r1 =>
  -- Begin the scene
  (deref B dev (Call.BeginScene dev) r1.2).bind fun r2 =>
  let o : Option (State β) :=
    if SUCCEEDED r2.1.hr then
      (deref B dev (Call.SetStreamSource dev 0 r2.2.g_p_vb 0 sizeof_CUSTOMVERTEX) r2.2).bind fun r3 =>
      (deref B dev (Call.SetFVF dev D3DFVF_CUSTOMVERTEX) r3.2).bind fun r4 =>
      (deref B dev (Call.DrawPrimitive dev D3DPT_TRIANGLELIST 0 1) r4.2).bind fun r5 =>
      -- End the scene
      (deref B dev (Call.EndScene dev) r5.2).map Prod.snd
    else some r2.2
  -- Present the backbuffer contents to the display
  o.bind fun s6 => (deref B dev (Call.Present dev 0 0 0 0) s6).map Prod.snd

/-- The function msg_proc: the window's message handler. -/
def msg_proc (B : Backend β) (hWnd msg wParam lParam : Nat) (s : State β) :
    Option (Int × State β) :=
  let s0 := enter Fn.msg_proc s
  if msg = WM_DESTROY then
    (cleanup B s0).map fun s1 => (0, (invoke B (Call.PostQuitMessage 0) s1).2)
  else
    let r := invoke B (Call.DefWindowProc hWnd msg wParam lParam) s0
    some (r.1.hr, r.2)

/-- The system calls the window procedure msg_proc with each of the messages
ms in turn.  Every call of the program is recorded when it is made, so a call
of msg_proc nested in DefWindowProc is the same as one that follows it. -/
def deliver (B : Backend β) : List MSG → State β → Option (State β)
  | [], s => some s
  | m :: ms, s =>
    (msg_proc B m.hwnd m.message m.wParam m.lParam s).bind fun r => deliver B ms r.2

/-- The while loop of WinMain.  The script lists what the system does in the
successive iterations.  The result is true when the loop has exited and false
when the script ends while the loop is still running. -/
def message_loop (B : Backend β) : List Poll → MSG → State β → Option (Bool × State β)
  | [], msg, s => if msg.message ≠ WM_QUIT then some (false, s) else some (true, s)
  | p :: rest, msg, s =>
    if msg.message ≠ WM_QUIT then
      let s1 := (invoke B (Call.PeekMessage 0 0 0 PM_REMOVE) s).2
      (deliver B p.sent s1).bind fun s2 =>
        match p.retrieved with
        | some m =>
          let s3 := (invoke B (Call.TranslateMessage m) s2).2
          let s4 := (invoke B (Call.DispatchMessage m) s3).2
          (deliver B p.delivered s4).bind fun s5 => message_loop B rest m s5
        | none => (render B s2).bind fun s3 => message_loop B rest msg s3
    else some (true, s)

/-- The end of WinMain: unregister the class and return 0. -/
def WinMain_exit (B : Backend β) (hInstance : Nat) (s : State β) : Option Int × State β :=
  (some 0, (invoke B (Call.UnregisterClass class_name hInstance) s).2)

/-- The start of WinMain: register the window class and create the
application's window.  The result is wc.hInstance, h_wnd and the state. -/
def WinMain_window (B : Backend β) (hInst : Nat) (s : State β) : (Nat × Nat) × State β :=
  -- Register the window class
  let r1 := invoke B (Call.GetModuleHandle 0) s
  let wc_hInstance := r1.1.ptr.getD 0
  let r2 := invoke B (Call.LoadIcon hInst icon_name) r1.2
  let r3 := invoke B
    (Call.RegisterClassEx CS_CLASSDC 0 0 wc_hInstance (r2.1.ptr.getD 0) class_name) r2.2
  -- Create the application's window
  let r4 := invoke B
    (Call.CreateWindow class_name window_title WS_OVERLAPPEDWINDOW 100 100 300 300 0 0
      wc_hInstance 0) r3.2
  ((wc_hInstance, r4.1.ptr.getD 0), r4.2)

/-- The function WinMain: the application's entry point.  The result is the
value returned, or none when the script ends while the message loop is still
running. -/
def WinMain (B : Backend β) (hInst : Nat) (script : List Poll) (s : State β) :
    Option (Option Int × State β) :=
  let w := WinMain_window B hInst s
  let wc_hInstance := w.1.1
  let h_wnd := w.1.2
  -- Initialize Direct3D
  (init_d3_d B h_wnd w.2).bind fun i1 =>
    if SUCCEEDED i1.1 then
      -- Create the vertex buffer
      (init_vb B i1.2).bind fun i2 =>
        if SUCCEEDED i2.1 then
          -- Show the window
          let s5 := (invoke B (Call.ShowWindow h_wnd SW_SHOWDEFAULT) i2.2).2
          let s6 := (invoke B (Call.UpdateWindow h_wnd) s5).2
          -- Enter the message loop
          (message_loop B script {} (enter Fn.message_loop s6)).bind fun l =>
            if l.1 then some (WinMain_exit B wc_hInstance l.2) else some (none, l.2)
        else some (WinMain_exit B wc_hInstance i2.2)
    else some (WinMain_exit B wc_hInstance i1.2)

/-- The process at its start: the three global handles are nullptr and nothing
has been recorded. -/
def initial (b : β) : State β :=
  { g_p_d3_d := 0, g_pd3d_device := 0, g_p_vb := 0, backend := b, log := [], entered := [] }

/-! ## Vocabulary of the statements -/

/-- A stub backend in which every call succeeds and produces the pointer 7. -/
def stub_backend : Backend Unit := fun b _ => ({ hr := 0, ptr := some 7 }, b)

/-- A state in which the three resources exist, at distinct addresses. -/
def ready (b : β) : State β :=
  { g_p_d3_d := 1, g_pd3d_device := 2, g_p_vb := 3, backend := b, log := [], entered := [] }

/-- The calls through which a pointer is obtained. -/
def Call.yields_pointer : Call → Bool
  | Call.CreateDevice .. => true
  | Call.CreateVertexBuffer .. => true
  | Call.Lock .. => true
  | _ => false

/-- The backend honours the API contract: a creation or lock call that reports
success stores a non-null pointer. -/
def Contract (B : Backend β) : Prop :=
  ∀ b c, c.yields_pointer = true → 0 ≤ (B b c).1.hr → ∃ p, (B b c).1.ptr = some p ∧ p ≠ 0

def Call.is_Present : Call → Bool
  | Call.Present .. => true
  | _ => false

def Call.is_DrawPrimitive : Call → Bool
  | Call.DrawPrimitive .. => true
  | _ => false

def Call.is_Unlock : Call → Bool
  | Call.Unlock .. => true
  | _ => false

def Call.is_memcpy : Call → Bool
  | Call.memcpy .. => true
  | _ => false

def Call.is_Release : Call → Bool
  | Call.Release .. => true
  | _ => false

def Call.is_CreateWindow : Call → Bool
  | Call.CreateWindow .. => true
  | _ => false

def Call.is_ShowWindow : Call → Bool
  | Call.ShowWindow .. => true
  | _ => false

/-- The byte count a call carries: the length of CreateVertexBuffer, the size
of Lock, the count of memcpy. -/
def Call.bytes : Call → Option Nat
  | Call.CreateVertexBuffer _ n _ _ _ _ => some n
  | Call.Lock _ _ n _ => some n
  | Call.memcpy _ _ n => some n
  | _ => none

/-! ## Outcomes the statements refer to -/

/-- The CreateDevice call of init_d3_d, made through the factory d3d. -/
def device_call (d3d hWnd : Nat) : Call :=
  Call.CreateDevice d3d D3DADAPTER_DEFAULT D3DDEVTYPE_HAL hWnd D3DCREATE_SOFTWARE_VERTEXPROCESSING
    { Windowed := TRUE, SwapEffect := D3DSWAPEFFECT_DISCARD, BackBufferFormat := D3DFMT_UNKNOWN }

/-- The factory pointer Direct3DCreate9 returns in init_d3_d (0 is nullptr). -/
def factory_ptr (B : Backend β) (s : State β) : Nat :=
  ((B s.backend (Call.Direct3DCreate9 D3D_SDK_VERSION)).1.ptr).getD 0

/-- The HRESULT the backend gives to the CreateDevice call of init_d3_d. -/
def device_hr (B : Backend β) (hWnd : Nat) (s : State β) : Int :=
  (B (B s.backend (Call.Direct3DCreate9 D3D_SDK_VERSION)).2
    (device_call (factory_ptr B s) hWnd)).1.hr

/-- The CreateVertexBuffer call of init_vb, made through the device dev. -/
def buffer_call (dev : Nat) : Call :=
  Call.CreateVertexBuffer dev (3 * sizeof_CUSTOMVERTEX) 0 D3DFVF_CUSTOMVERTEX D3DPOOL_DEFAULT 0

/-- The HRESULT the backend gives to the CreateVertexBuffer call of init_vb. -/
def buffer_hr (B : Backend β) (s : State β) : Int :=
  (B s.backend (buffer_call s.g_pd3d_device)).1.hr

/-- The value of g_p_vb after the CreateVertexBuffer call of init_vb. -/
def buffer_ptr (B : Backend β) (s : State β) : Nat :=
  ((B s.backend (buffer_call s.g_pd3d_device)).1.ptr).getD s.g_p_vb

/-- The Lock call of init_vb, made through the buffer vb. -/
def lock_call (vb : Nat) : Call := Call.Lock vb 0 sizeof_vertices 0

/-- The HRESULT the backend gives to the Lock call of init_vb. -/
def lock_hr (B : Backend β) (s : State β) : Int :=
  (B (B s.backend (buffer_call s.g_pd3d_device)).2 (lock_call (buffer_ptr B s))).1.hr

/-- The value of p_vertices after the Lock call of init_vb. -/
def lock_ptr (B : Backend β) (s : State β) : Nat :=
  ((B (B s.backend (buffer_call s.g_pd3d_device)).2 (lock_call (buffer_ptr B s))).1.ptr).getD 0

/-- The Clear call of render. -/
def clear_call (dev : Nat) : Call :=
  Call.Clear dev 0 0 D3DCLEAR_TARGET (D3DCOLOR_XRGB 0 0 255) f_1_0 0

/-- The HRESULT the backend gives to the BeginScene call of render. -/
def begin_scene_hr (B : Backend β) (s : State β) : Int :=
  (B (B s.backend (clear_call s.g_pd3d_device)).2 (Call.BeginScene s.g_pd3d_device)).1.hr

/-- The Release calls of one cleanup() on the handles vb, dev and d3d. -/
def release_calls (vb dev d3d : Nat) : List Call :=
  (if vb ≠ 0 then [Call.Release Resource.vertex_buffer vb] else []) ++
  ((if dev ≠ 0 then [Call.Release Resource.device dev] else []) ++
  (if d3d ≠ 0 then [Call.Release Resource.factory d3d] else []))

/-- The calls of one render() on the device dev and the buffer vb, according
to whether BeginScene succeeds. -/
def render_calls (dev vb : Nat) (scene : Bool) : List Call :=
  if scene then
    [clear_call dev, Call.BeginScene dev, Call.SetStreamSource dev 0 vb 0 sizeof_CUSTOMVERTEX,
     Call.SetFVF dev D3DFVF_CUSTOMVERTEX, Call.DrawPrimitive dev D3DPT_TRIANGLELIST 0 1,
     Call.EndScene dev, Call.Present dev 0 0 0 0]
  else [clear_call dev, Call.BeginScene dev, Call.Present dev 0 0 0 0]

/-- The script entry p retrieves a message with the given code. -/
def retrieves (code : Nat) (p : Option MSG) : Bool :=
  match p with
  | some m => decide (m.message = code)
  | none => false

/-- The message left in msg once the script pre has been run. -/
def last_msg (pre : List Poll) (m0 : MSG) : MSG :=
  pre.foldl (fun m p => p.retrieved.getD m) m0

/-- The messages the system passes to the window procedure in the iteration p. -/
def Poll.procedure_calls (p : Poll) : List MSG :=
  p.sent ++ (match p.retrieved with
    | some _ => p.delivered
    | none => [])

/-- The functions entered when the window procedure is called with ms. -/
def procedure_entered (ms : List MSG) : List Fn :=
  ms.flatMap fun m => if m.message = WM_DESTROY then [Fn.msg_proc, Fn.cleanup] else [Fn.msg_proc]

/-- The functions entered by the iteration p of the loop. -/
def step_entered (p : Poll) : List Fn :=
  procedure_entered p.sent ++ (match p.retrieved with
    | some _ => procedure_entered p.delivered
    | none => [Fn.render])

/-- The message m is a destroy message. -/
def is_destroy (m : MSG) : Bool := decide (m.message = WM_DESTROY)

/-- Nothing is retrieved in the iteration p: the loop calls render. -/
def Poll.idle (p : Poll) : Bool := p.retrieved.isNone

/-- An iteration in which no message is pending. -/
def idle_poll : Poll := { retrieved := none }

/-- An iteration in which WM_CLOSE (0x0010) is retrieved for the window 7 and
dispatched to it; the window procedure passes it to DefWindowProc, which
destroys the window: the procedure is called again, with WM_DESTROY. -/
def close_poll : Poll :=
  { retrieved := some { hwnd := 7, message := 0x0010 },
    delivered := [{ hwnd := 7, message := 0x0010 }, { hwnd := 7, message := WM_DESTROY }] }

/-- An iteration in which the quit message is retrieved; it belongs to no
window, so DispatchMessage calls no window procedure. -/
def quit_poll : Poll := { retrieved := some { message := WM_QUIT } }

/-- The calls the window procedure makes: the releases of cleanup,
PostQuitMessage and DefWindowProc. -/
def Call.of_msg_proc : Call → Bool
  | Call.Release .. => true
  | Call.PostQuitMessage .. => true
  | Call.DefWindowProc .. => true
  | _ => false

/-- The calls WinMain makes itself once both initialization steps have
succeeded: showing the window and running the message loop. -/
def Call.of_loop : Call → Bool
  | Call.ShowWindow .. => true
  | Call.UpdateWindow .. => true
  | Call.PeekMessage .. => true
  | Call.TranslateMessage .. => true
  | Call.DispatchMessage .. => true
  | _ => false

/-- Every call succeeds and produces a non-null pointer. -/
def Succeeds (B : Backend β) : Prop :=
  ∀ b c, 0 ≤ (B b c).1.hr ∧ ∃ p, (B b c).1.ptr = some p ∧ p ≠ 0

/-- A backend in which no call produces a pointer: Direct3DCreate9 returns
nullptr. -/
def null_backend : Backend Unit := fun b _ => ({ hr := 0, ptr := none }, b)

/-! ## How each function runs -/

theorem init_d3_d_cases (B : Backend β) (hWnd : Nat) (s : State β) :
    ∃ hr s', init_d3_d B hWnd s = some (hr, s') ∧
      s'.entered = s.entered ++ [Fn.init_d3_d] ∧ s'.g_p_vb = s.g_p_vb ∧
      s'.g_p_d3_d = factory_ptr B s ∧
      ((factory_ptr B s = 0 ∧ hr = E_FAIL ∧
          s'.log = s.log ++ [Call.Direct3DCreate9 D3D_SDK_VERSION]) ∨
       (factory_ptr B s ≠ 0 ∧ device_hr B hWnd s < 0 ∧ hr = E_FAIL ∧
          s'.log = s.log ++
            [Call.Direct3DCreate9 D3D_SDK_VERSION, device_call (factory_ptr B s) hWnd]) ∨
       (factory_ptr B s ≠ 0 ∧ 0 ≤ device_hr B hWnd s ∧ hr = S_OK ∧
          s'.log = s.log ++
            [Call.Direct3DCreate9 D3D_SDK_VERSION, device_call (factory_ptr B s) hWnd] ∧
          (Contract B → s'.g_pd3d_device ≠ 0))) := by
  by_cases h0 : factory_ptr B s = 0
  · have h0' := h0
    simp only [factory_ptr] at h0'
    simp [init_d3_d, invoke, enter, h0, h0', and_assoc, factory_ptr]
  · have h0' := h0
    simp only [factory_ptr] at h0'
    by_cases h1 : device_hr B hWnd s < 0
    · have h1' := h1
      simp only [device_hr, device_call, factory_ptr] at h1'
      simp [init_d3_d, invoke, enter, deref, h0, h0', h1, h1', FAILED, device_call,
        factory_ptr, and_assoc]
    · have h1' := h1
      simp only [device_hr, device_call, factory_ptr] at h1'
      have h2 : Contract B → ((B (B s.backend (Call.Direct3DCreate9 D3D_SDK_VERSION)).2
          (device_call (factory_ptr B s) hWnd)).1.ptr).getD s.g_pd3d_device ≠ 0 := by
        intro hB
        obtain ⟨p, hp, hp0⟩ := hB (B s.backend (Call.Direct3DCreate9 D3D_SDK_VERSION)).2
          (device_call (factory_ptr B s) hWnd) rfl (not_lt.mp h1)
        rw [hp]
        simpa using hp0
      simp only [device_call, factory_ptr] at h2
      simp [init_d3_d, invoke, enter, deref, h0, h0', h1, h1', FAILED, device_call,
        factory_ptr, and_assoc]
      exact ⟨not_lt.mp h1', h2⟩

theorem init_vb_cases (B : Backend β) (s : State β) (hdev : s.g_pd3d_device ≠ 0)
    (hB : Contract B) :
    ∃ hr s', init_vb B s = some (hr, s') ∧
      s'.entered = s.entered ++ [Fn.init_vb] ∧ s'.g_pd3d_device = s.g_pd3d_device ∧
      s'.g_p_d3_d = s.g_p_d3_d ∧ s'.g_p_vb = buffer_ptr B s ∧
      ((buffer_hr B s < 0 ∧ hr = E_FAIL ∧ s'.log = s.log ++ [buffer_call s.g_pd3d_device]) ∨
       (0 ≤ buffer_hr B s ∧ lock_hr B s < 0 ∧ hr = E_FAIL ∧
          s'.log = s.log ++ [buffer_call s.g_pd3d_device, lock_call (buffer_ptr B s)]) ∨
       (0 ≤ buffer_hr B s ∧ 0 ≤ lock_hr B s ∧ hr = S_OK ∧
          s'.log = s.log ++ [buffer_call s.g_pd3d_device, lock_call (buffer_ptr B s),
            Call.memcpy (lock_ptr B s) vertices sizeof_vertices,
            Call.Unlock (buffer_ptr B s)])) := by
  by_cases h1 : buffer_hr B s < 0
  · have h1' := h1
    simp only [buffer_hr, buffer_call] at h1'
    simp [init_vb, invoke, enter, deref, hdev, h1, h1', FAILED, buffer_call, buffer_ptr,
      and_assoc]
  · have h1' := h1
    simp only [buffer_hr, buffer_call] at h1'
    have hvb : buffer_ptr B s ≠ 0 := by
      obtain ⟨p, hp, hp0⟩ := hB s.backend (buffer_call s.g_pd3d_device) rfl (not_lt.mp h1)
      simp only [buffer_ptr]
      rw [hp]
      simpa using hp0
    have hvb' := hvb
    simp only [buffer_ptr, buffer_call] at hvb'
    by_cases h2 : lock_hr B s < 0
    · have h2' := h2
      simp only [lock_hr, lock_call, buffer_ptr, buffer_call] at h2'
      simp [init_vb, invoke, enter, deref, hdev, h1, h1', h2, h2', hvb', FAILED, buffer_call,
        buffer_ptr, lock_call, and_assoc]
      exact not_lt.mp h1'
    · have h2' := h2
      simp only [lock_hr, lock_call, buffer_ptr, buffer_call] at h2'
      have hp : lock_ptr B s ≠ 0 := by
        obtain ⟨p, hp, hp0⟩ := hB (B s.backend (buffer_call s.g_pd3d_device)).2
          (lock_call (buffer_ptr B s)) rfl (not_lt.mp h2)
        simp only [lock_ptr]
        rw [hp]
        simpa using hp0
      have hp' := hp
      simp only [lock_ptr, lock_call, buffer_ptr, buffer_call] at hp'
      simp [init_vb, invoke, enter, deref, hdev, h1, h1', h2, h2', hvb', hp', FAILED,
        buffer_call, buffer_ptr, lock_call, lock_ptr, and_assoc]
      exact ⟨not_lt.mp h1', not_lt.mp h2'⟩

theorem cleanup_cases (B : Backend β) (s : State β) :
    ∃ s', cleanup B s = some s' ∧ s'.entered = s.entered ++ [Fn.cleanup] ∧
      s'.g_p_vb = s.g_p_vb ∧ s'.g_pd3d_device = s.g_pd3d_device ∧ s'.g_p_d3_d = s.g_p_d3_d ∧
      s'.log = s.log ++ release_calls s.g_p_vb s.g_pd3d_device s.g_p_d3_d := by
  by_cases h1 : s.g_p_vb = 0 <;> by_cases h2 : s.g_pd3d_device = 0 <;>
    by_cases h3 : s.g_p_d3_d = 0 <;>
    simp [cleanup, invoke, enter, deref, release_calls, h1, h2, h3]

theorem render_cases (B : Backend β) (s : State β) (hdev : s.g_pd3d_device ≠ 0) :
    ∃ s', render B s = some s' ∧ s'.entered = s.entered ++ [Fn.render] ∧
      s'.g_p_vb = s.g_p_vb ∧ s'.g_pd3d_device = s.g_pd3d_device ∧ s'.g_p_d3_d = s.g_p_d3_d ∧
      s'.log = s.log ++
        render_calls s.g_pd3d_device s.g_p_vb (SUCCEEDED (begin_scene_hr B s)) := by
  by_cases h : 0 ≤ begin_scene_hr B s
  · have h' := h
    simp only [begin_scene_hr, clear_call] at h'
    simp [render, invoke, enter, deref, hdev, h, h', SUCCEEDED, render_calls, clear_call]
  · have h' := h
    simp only [begin_scene_hr, clear_call] at h'
    simp [render, invoke, enter, deref, hdev, h, h', SUCCEEDED, render_calls, clear_call]

theorem msg_proc_cases (B : Backend β) (hWnd msg wParam lParam : Nat) (s : State β) :
    ∃ r, msg_proc B hWnd msg wParam lParam s = some r ∧
      r.2.g_p_vb = s.g_p_vb ∧ r.2.g_pd3d_device = s.g_pd3d_device ∧
      r.2.g_p_d3_d = s.g_p_d3_d ∧
      r.2.entered = s.entered ++
        (if msg = WM_DESTROY then [Fn.msg_proc, Fn.cleanup] else [Fn.msg_proc]) ∧
      r.2.log = s.log ++
        (if msg = WM_DESTROY then
          release_calls s.g_p_vb s.g_pd3d_device s.g_p_d3_d ++ [Call.PostQuitMessage 0]
         else [Call.DefWindowProc hWnd msg wParam lParam]) := by
  by_cases h : msg = WM_DESTROY
  · obtain ⟨s1, e1, e2, e3, e4, e5, e6⟩ := cleanup_cases B (enter Fn.msg_proc s)
    simp only [enter] at e1 e2 e3 e4 e5 e6
    simp [msg_proc, h, enter, e1, invoke, e2, e3, e4, e5, e6]
  · simp [msg_proc, h, invoke, enter]

/-! ## The claims on the single functions -/

/-- C1: with a non-null device, render always returns; it calls Present exactly
once, as its last call, and calls DrawPrimitive only if BeginScene succeeded:
the calls are clear, begin-scene, set-stream-source, set-format, draw-primitive,
end-scene, present when BeginScene succeeds, and clear, begin-scene, present
when it fails. -/
theorem render_presents_once (B : Backend β) (s : State β) (hdev : s.g_pd3d_device ≠ 0) :
    ∃ s' calls, render B s = some s' ∧ s'.log = s.log ++ calls ∧
      (0 ≤ begin_scene_hr B s → calls =
        [clear_call s.g_pd3d_device, Call.BeginScene s.g_pd3d_device,
         Call.SetStreamSource s.g_pd3d_device 0 s.g_p_vb 0 sizeof_CUSTOMVERTEX,
         Call.SetFVF s.g_pd3d_device D3DFVF_CUSTOMVERTEX,
         Call.DrawPrimitive s.g_pd3d_device D3DPT_TRIANGLELIST 0 1,
         Call.EndScene s.g_pd3d_device, Call.Present s.g_pd3d_device 0 0 0 0]) ∧
      (begin_scene_hr B s < 0 → calls =
        [clear_call s.g_pd3d_device, Call.BeginScene s.g_pd3d_device,
         Call.Present s.g_pd3d_device 0 0 0 0]) ∧
      calls.countP Call.is_Present = 1 ∧
      calls.getLast? = some (Call.Present s.g_pd3d_device 0 0 0 0) ∧
      ((∃ c ∈ calls, c.is_DrawPrimitive = true) → 0 ≤ begin_scene_hr B s) := by
  obtain ⟨s', e, _, _, _, _, hl⟩ := render_cases B s hdev
  refine ⟨s', _, e, hl, ?_⟩
  by_cases h : 0 ≤ begin_scene_hr B s
  · simp [render_calls, SUCCEEDED, h, clear_call, Call.is_Present, Call.is_DrawPrimitive,
      not_lt.mpr h]
  · simp [render_calls, SUCCEEDED, h, clear_call, Call.is_Present, Call.is_DrawPrimitive,
      not_le.mp h]

/-- Witness of C1: the stub backend on a state in which the resources exist. -/
theorem render_presents_once_witness :
    (ready ()).g_pd3d_device ≠ 0 ∧
    ∃ s' calls, render stub_backend (ready ()) = some s' ∧ s'.log = calls ∧
      calls.countP Call.is_Present = 1 := by
  refine ⟨by decide, ?_⟩
  obtain ⟨s', calls, e, hl, _, _, hc, _⟩ := render_presents_once stub_backend (ready ()) (by decide)
  refine ⟨s', calls, e, ?_, hc⟩
  simpa [ready] using hl

/-- C3: cleanup always returns and leaves the handles as they are; it releases
exactly the non-null handles, each once, in the order vertex buffer, device,
factory, and makes no release call on a null handle; with all three null it
makes no backend call at all. -/
theorem cleanup_releases_non_null (B : Backend β) (s : State β) :
    ∃ s', cleanup B s = some s' ∧
      s'.log = s.log ++
        ((if s.g_p_vb ≠ 0 then [Call.Release Resource.vertex_buffer s.g_p_vb] else []) ++
         ((if s.g_pd3d_device ≠ 0 then [Call.Release Resource.device s.g_pd3d_device] else []) ++
          (if s.g_p_d3_d ≠ 0 then [Call.Release Resource.factory s.g_p_d3_d] else []))) ∧
      (∀ w p, Call.Release w p ∈ s'.log → Call.Release w p ∉ s.log → p ≠ 0) ∧
      (s.g_p_vb = 0 → s.g_pd3d_device = 0 → s.g_p_d3_d = 0 →
        s'.log = s.log ∧ s'.backend = s.backend) := by
  obtain ⟨s', e, _, _, _, _, hl⟩ := cleanup_cases B s
  refine ⟨s', e, hl, ?_, ?_⟩
  · intro w p hp hn
    rw [hl, List.mem_append] at hp
    rcases hp with hp | hp
    · exact absurd hp hn
    · intro h0
      subst h0
      unfold release_calls at hp
      by_cases h1 : s.g_p_vb = 0 <;> by_cases h2 : s.g_pd3d_device = 0 <;>
        by_cases h3 : s.g_p_d3_d = 0 <;> simp [h1, h2, h3] at hp <;> omega
  · intro h1 h2 h3
    have e' : cleanup B s = some (enter Fn.cleanup s) := by
      simp [cleanup, enter, h1, h2, h3]
    rw [e'] at e
    cases e
    simp [enter]

/-- C4, as stated, fails: with three non-null handles the second cleanup()
repeats the three release calls, so every resource is released twice. -/
theorem cleanup_twice_counterexample :
    (cleanup stub_backend (ready ())).map State.log =
      some [Call.Release Resource.vertex_buffer 3, Call.Release Resource.device 2,
            Call.Release Resource.factory 1] ∧
    ((cleanup stub_backend (ready ())).bind (cleanup stub_backend)).map State.log =
      some [Call.Release Resource.vertex_buffer 3, Call.Release Resource.device 2,
            Call.Release Resource.factory 1, Call.Release Resource.vertex_buffer 3,
            Call.Release Resource.device 2, Call.Release Resource.factory 1] :=
  ⟨rfl, rfl⟩

/-- C4, amended: cleanup never resets the handles, so a second cleanup()
repeats exactly the release calls of the first: every non-null handle is
released once per call, and the recorded calls after two calls equal those
after one call only when all three handles are null. -/
theorem cleanup_twice_repeats (B : Backend β) (s : State β) :
    ∃ s1 s2, cleanup B s = some s1 ∧ cleanup B s1 = some s2 ∧
      s1.log = s.log ++ release_calls s.g_p_vb s.g_pd3d_device s.g_p_d3_d ∧
      s2.log = s1.log ++ release_calls s.g_p_vb s.g_pd3d_device s.g_p_d3_d ∧
      (s2.g_p_vb = s.g_p_vb ∧ s2.g_pd3d_device = s.g_pd3d_device ∧ s2.g_p_d3_d = s.g_p_d3_d) ∧
      (s2.log = s1.log ↔ (s.g_p_vb = 0 ∧ s.g_pd3d_device = 0 ∧ s.g_p_d3_d = 0)) := by
  obtain ⟨s1, e1, _, a1, a2, a3, l1⟩ := cleanup_cases B s
  obtain ⟨s2, e2, _, b1, b2, b3, l2⟩ := cleanup_cases B s1
  simp only [a1, a2, a3] at l2 b1 b2 b3
  refine ⟨s1, s2, e1, e2, l1, l2, ⟨b1, b2, b3⟩, ?_⟩
  rw [l2]
  by_cases h1 : s.g_p_vb = 0 <;> by_cases h2 : s.g_pd3d_device = 0 <;>
    by_cases h3 : s.g_p_d3_d = 0 <;> simp [release_calls, h1, h2, h3]

/-- C7: sizeof(CUSTOMVERTEX) is 4*4 + 4 = 20 bytes and init_vb passes
3 * 20 = 60 bytes to CreateVertexBuffer, its first call; every byte count in
the calls of init_vb (the length of the buffer, the size locked, the bytes
copied) is that same 60. -/
theorem vertex_buffer_is_60_bytes (B : Backend β) (s : State β)
    (hdev : s.g_pd3d_device ≠ 0) (hB : Contract B) :
    sizeof_CUSTOMVERTEX = 4 * 4 + 4 ∧ 3 * sizeof_CUSTOMVERTEX = 60 ∧ sizeof_vertices = 60 ∧
    ∃ r calls, init_vb B s = some r ∧ r.2.log = s.log ++ calls ∧
      calls.head? =
        some (Call.CreateVertexBuffer s.g_pd3d_device 60 0 D3DFVF_CUSTOMVERTEX D3DPOOL_DEFAULT 0) ∧
      (∀ c ∈ calls, ∀ n, c.bytes = some n → n = 3 * (4 * 4 + 4)) ∧
      (0 ≤ buffer_hr B s → 0 ≤ lock_hr B s →
        calls.map Call.bytes = [some 60, some 60, some 60, none]) := by
  have k1 : sizeof_CUSTOMVERTEX = 20 := by decide
  have k2 : sizeof_vertices = 60 := by decide
  refine ⟨by decide, by decide, by decide, ?_⟩
  obtain ⟨hr, s', e, _, _, _, _, h | h | h⟩ := init_vb_cases B s hdev hB
  · obtain ⟨h1, _, hl⟩ := h
    refine ⟨_, _, e, hl, ?_, ?_, ?_⟩
    · simp [buffer_call, k1]
    · simp [buffer_call, k1, Call.bytes]
    · intro h2
      omega
  · obtain ⟨h1, h2, _, hl⟩ := h
    refine ⟨_, _, e, hl, ?_, ?_, ?_⟩
    · simp [buffer_call, k1]
    · simp [buffer_call, lock_call, k1, k2, Call.bytes]
    · intro _ h3
      omega
  · obtain ⟨h1, h2, _, hl⟩ := h
    refine ⟨_, _, e, hl, ?_, ?_, ?_⟩
    · simp [buffer_call, k1]
    · simp [buffer_call, lock_call, k1, k2, Call.bytes]
    · intro _ _
      simp [buffer_call, lock_call, k1, k2, Call.bytes]

/-- The stub backend honours the API contract. -/
theorem stub_backend_contract : Contract stub_backend :=
  fun _ _ _ _ => ⟨7, rfl, by decide⟩

/-- Witness of C7: the stub backend on a state in which the resources exist. -/
theorem vertex_buffer_is_60_bytes_witness :
    (ready ()).g_pd3d_device ≠ 0 ∧ Contract stub_backend ∧
    ∃ r calls, init_vb stub_backend (ready ()) = some r ∧ r.2.log = (ready ()).log ++ calls ∧
      calls.head? = some (Call.CreateVertexBuffer 2 60 0 D3DFVF_CUSTOMVERTEX D3DPOOL_DEFAULT 0) := by
  refine ⟨by decide, stub_backend_contract, ?_⟩
  obtain ⟨_, _, _, r, calls, e, hl, hh, _⟩ :=
    vertex_buffer_is_60_bytes stub_backend (ready ()) (by decide) stub_backend_contract
  exact ⟨r, calls, e, hl, hh⟩

/-- C8: with a non-null device and a backend that honours the API contract,
init_vb always returns; it returns success exactly when both the allocation
and the lock succeed, and then its calls are create-buffer, lock, one copy of
the three vertices, unlock; if the allocation fails its only call is
create-buffer; if the lock fails its calls are create-buffer and lock.  So the
buffer is unlocked once when the lock succeeded and never otherwise, and its
content is written at most once. -/
theorem init_vb_result (B : Backend β) (s : State β)
    (hdev : s.g_pd3d_device ≠ 0) (hB : Contract B) :
    ∃ hr s' calls, init_vb B s = some (hr, s') ∧ s'.log = s.log ++ calls ∧
      (SUCCEEDED hr = true ↔ 0 ≤ buffer_hr B s ∧ 0 ≤ lock_hr B s) ∧
      (hr = S_OK ∨ hr = E_FAIL) ∧
      (0 ≤ buffer_hr B s → 0 ≤ lock_hr B s → calls =
        [buffer_call s.g_pd3d_device, lock_call (buffer_ptr B s),
         Call.memcpy (lock_ptr B s) vertices sizeof_vertices, Call.Unlock (buffer_ptr B s)]) ∧
      (buffer_hr B s < 0 → calls = [buffer_call s.g_pd3d_device]) ∧
      (0 ≤ buffer_hr B s → lock_hr B s < 0 →
        calls = [buffer_call s.g_pd3d_device, lock_call (buffer_ptr B s)]) ∧
      calls.countP Call.is_Unlock = (if 0 ≤ buffer_hr B s ∧ 0 ≤ lock_hr B s then 1 else 0) ∧
      calls.countP Call.is_memcpy ≤ 1 := by
  obtain ⟨hr, s', e, _, _, _, _, h | h | h⟩ := init_vb_cases B s hdev hB
  · obtain ⟨h1, h2, hl⟩ := h
    refine ⟨hr, s', _, e, hl, ?_⟩
    subst h2
    simp [SUCCEEDED, E_FAIL, h1, not_le.mpr h1, buffer_call, Call.is_Unlock, Call.is_memcpy]
  · obtain ⟨h1, h2, h3, hl⟩ := h
    refine ⟨hr, s', _, e, hl, ?_⟩
    subst h3
    simp [SUCCEEDED, E_FAIL, h1, h2, not_le.mpr h2, not_lt.mpr h1, buffer_call, lock_call,
      Call.is_Unlock, Call.is_memcpy]
  · obtain ⟨h1, h2, h3, hl⟩ := h
    refine ⟨hr, s', _, e, hl, ?_⟩
    subst h3
    simp [SUCCEEDED, S_OK, h1, h2, not_lt.mpr h2, not_lt.mpr h1, buffer_call, lock_call,
      Call.is_Unlock, Call.is_memcpy]

/-- Witness of C8: the stub backend on a state in which the resources exist. -/
theorem init_vb_result_witness :
    (ready ()).g_pd3d_device ≠ 0 ∧ Contract stub_backend ∧
    ∃ hr s', init_vb stub_backend (ready ()) = some (hr, s') ∧ (hr = S_OK ∨ hr = E_FAIL) := by
  refine ⟨by decide, stub_backend_contract, ?_⟩
  obtain ⟨hr, s', _, e, _, _, h, _⟩ :=
    init_vb_result stub_backend (ready ()) (by decide) stub_backend_contract
  exact ⟨hr, s', e, h⟩

/-- C9: init_d3_d always returns, whatever the window handle and the outcomes;
it returns failure (E_FAIL) exactly when Direct3DCreate9 returns null or
CreateDevice fails, and S_OK otherwise; with a null factory its only call is
Direct3DCreate9 (no CreateDevice), otherwise its calls are one Direct3DCreate9
followed by one CreateDevice. -/
theorem init_d3_d_result (B : Backend β) (hWnd : Nat) (s : State β) :
    ∃ hr s' calls, init_d3_d B hWnd s = some (hr, s') ∧ s'.log = s.log ++ calls ∧
      (FAILED hr = true ↔ factory_ptr B s = 0 ∨ device_hr B hWnd s < 0) ∧
      (FAILED hr = true → hr = E_FAIL) ∧
      (FAILED hr = false → hr = S_OK) ∧
      (factory_ptr B s = 0 → calls = [Call.Direct3DCreate9 D3D_SDK_VERSION]) ∧
      (factory_ptr B s ≠ 0 → calls =
        [Call.Direct3DCreate9 D3D_SDK_VERSION, device_call (factory_ptr B s) hWnd]) := by
  obtain ⟨hr, s', e, _, _, _, h | h | h⟩ := init_d3_d_cases B hWnd s
  · obtain ⟨h1, h2, hl⟩ := h
    refine ⟨hr, s', _, e, hl, ?_⟩
    subst h2
    simp [FAILED, E_FAIL, h1]
  · obtain ⟨h1, h2, h3, hl⟩ := h
    refine ⟨hr, s', _, e, hl, ?_⟩
    subst h3
    simp [FAILED, E_FAIL, h1, h2]
  · obtain ⟨h1, h2, h3, hl, _⟩ := h
    refine ⟨hr, s', _, e, hl, ?_⟩
    subst h3
    simp [FAILED, S_OK, h1, not_lt.mpr h2]

/-! ## The message loop -/

theorem release_calls_of_msg_proc (vb dev d3d : Nat) :
    ∀ c ∈ release_calls vb dev d3d, c.of_msg_proc = true := by
  intro c hc
  unfold release_calls at hc
  simp only [List.mem_append] at hc
  rcases hc with hc | hc | hc <;> split_ifs at hc <;> simp at hc <;> subst hc <;> rfl

theorem deliver_cases (B : Backend β) (ms : List MSG) :
    ∀ s : State β, ∃ s' calls, deliver B ms s = some s' ∧
      s'.g_pd3d_device = s.g_pd3d_device ∧
      s'.entered = s.entered ++ procedure_entered ms ∧
      s'.log = s.log ++ calls ∧ (∀ c ∈ calls, c.of_msg_proc = true) ∧
      (ms = [] → calls = []) := by
  induction ms with
  | nil =>
    intro s
    exact ⟨s, [], rfl, rfl, by simp [procedure_entered], by simp, by simp, fun _ => rfl⟩
  | cons m ms ih =>
    intro s
    obtain ⟨r, e, _, d, _, n, l⟩ := msg_proc_cases B m.hwnd m.message m.wParam m.lParam s
    obtain ⟨s', calls, e', d', n', l', hc, _⟩ := ih r.2
    refine ⟨s', (if m.message = WM_DESTROY then
        release_calls s.g_p_vb s.g_pd3d_device s.g_p_d3_d ++ [Call.PostQuitMessage 0]
      else [Call.DefWindowProc m.hwnd m.message m.wParam m.lParam]) ++ calls, ?_, ?_, ?_, ?_, ?_, ?_⟩
    · simp [deliver, e, e']
    · rw [d', d]
    · rw [n', n]
      simp [procedure_entered]
    · rw [l', l, List.append_assoc]
    · intro c hm
      rcases List.mem_append.mp hm with hm | hm
      · by_cases hd : m.message = WM_DESTROY
        · rw [if_pos hd] at hm
          rcases List.mem_append.mp hm with hm | hm
          · exact release_calls_of_msg_proc _ _ _ c hm
          · simp only [List.mem_singleton] at hm
            subst hm
            rfl
        · rw [if_neg hd] at hm
          simp only [List.mem_singleton] at hm
          subst hm
          rfl
      · exact hc c hm
    · intro h
      cases h

theorem message_loop_quit (B : Backend β) (script : List Poll) (q : MSG) (s : State β)
    (hq : q.message = WM_QUIT) : message_loop B script q s = some (true, s) := by
  cases script <;> simp [message_loop, hq]

theorem message_loop_total (B : Backend β) (script : List Poll) :
    ∀ (m : MSG) (s : State β), s.g_pd3d_device ≠ 0 →
      ∃ r, message_loop B script m s = some r ∧ s.entered <+: r.2.entered ∧
        s.log <+: r.2.log ∧
        (m.message ≠ WM_QUIT → script ≠ [] →
          (s.log ++ [Call.PeekMessage 0 0 0 PM_REMOVE]) <+: r.2.log) := by
  induction script with
  | nil =>
    intro m s _
    by_cases hm : m.message = WM_QUIT <;> simp [message_loop, hm]
  | cons p rest ih =>
    intro m s hdev
    by_cases hm : m.message = WM_QUIT
    · simp [message_loop, hm]
    · obtain ⟨s2, u, e2, d2, n2, l2, _⟩ :=
        deliver_cases B p.sent (invoke B (Call.PeekMessage 0 0 0 PM_REMOVE) s).2
      have hp2 : (s.log ++ [Call.PeekMessage 0 0 0 PM_REMOVE]) <+: s2.log := by
        rw [l2]
        simp [invoke]
      have hn2 : s.entered <+: s2.entered := by
        rw [n2]
        simp [invoke]
      have hd2 : s2.g_pd3d_device ≠ 0 := by
        rw [d2]
        simpa [invoke] using hdev
      cases hr : p.retrieved with
      | none =>
        obtain ⟨s3, e3, n3, _, d3, _, l3⟩ := render_cases B s2 hd2
        obtain ⟨r, e, hn, hl, _⟩ := ih m s3 (by rw [d3]; exact hd2)
        have h23 : s2.log <+: s3.log := by
          rw [l3]
          exact List.prefix_append _ _
        refine ⟨r, ?_, ?_, ?_, ?_⟩
        · simp [message_loop, hm, e2, hr, e3, e]
        · exact hn2.trans ((by rw [n3]; exact List.prefix_append _ _ : s2.entered <+: s3.entered).trans hn)
        · exact ((List.prefix_append _ _).trans hp2).trans (h23.trans hl)
        · intro _ _
          exact hp2.trans (h23.trans hl)
      | some m1 =>
        obtain ⟨s5, v, e5, d5, n5, l5, _⟩ := deliver_cases B p.delivered
          (invoke B (Call.DispatchMessage m1) (invoke B (Call.TranslateMessage m1) s2).2).2
        obtain ⟨r, e, hn, hl, _⟩ := ih m1 s5 (by rw [d5]; simpa [invoke] using hd2)
        have h25 : s2.log <+: s5.log := by
          rw [l5]
          simp only [invoke, List.append_assoc]
          exact List.prefix_append _ _
        have hn25 : s2.entered <+: s5.entered := by
          rw [n5]
          simp [invoke]
        refine ⟨r, ?_, ?_, ?_, ?_⟩
        · simp [message_loop, hm, e2, hr, e5, e]
        · exact hn2.trans (hn25.trans hn)
        · exact ((List.prefix_append _ _).trans hp2).trans (h25.trans hl)
        · intro _ _
          exact hp2.trans (h25.trans hl)

theorem message_loop_run (B : Backend β) (rest : List Poll) (pre : List Poll) :
    ∀ (m : MSG) (s : State β), s.g_pd3d_device ≠ 0 → m.message ≠ WM_QUIT →
      (∀ p ∈ pre, retrieves WM_QUIT p.retrieved = false) →
      ∃ s1, message_loop B pre m s = some (false, s1) ∧
        message_loop B (pre ++ rest) m s = message_loop B rest (last_msg pre m) s1 ∧
        (last_msg pre m).message ≠ WM_QUIT ∧ s1.g_pd3d_device ≠ 0 ∧
        s1.entered = s.entered ++ pre.flatMap step_entered := by
  induction pre with
  | nil =>
    intro m s hdev hm _
    simp [message_loop, hm, last_msg, hdev]
  | cons p pre ih =>
    intro m s hdev hm hpre
    have hpre' : ∀ p ∈ pre, retrieves WM_QUIT p.retrieved = false :=
      fun x hx => hpre x (List.mem_cons_of_mem _ hx)
    obtain ⟨s2, u, e2, d2, n2, _⟩ :=
      deliver_cases B p.sent (invoke B (Call.PeekMessage 0 0 0 PM_REMOVE) s).2
    have hd2 : s2.g_pd3d_device ≠ 0 := by
      rw [d2]
      simpa [invoke] using hdev
    cases hr : p.retrieved with
    | none =>
      obtain ⟨s3, e3, n3, _, d3, _, _⟩ := render_cases B s2 hd2
      obtain ⟨s1, e, ea, hlast, hd1, hn⟩ := ih m s3 (by rw [d3]; exact hd2) hm hpre'
      refine ⟨s1, ?_, ?_, ?_, hd1, ?_⟩
      · simp [message_loop, hm, e2, hr, e3, e]
      · simp [message_loop, hm, e2, hr, e3, ea, last_msg]
      · simpa [last_msg, hr] using hlast
      · rw [hn, n3, n2]
        simp [invoke, step_entered, hr]
    | some m1 =>
      have hm1 : m1.message ≠ WM_QUIT := by
        have := hpre p (List.mem_cons_self _ _)
        rw [hr] at this
        simpa [retrieves] using this
      obtain ⟨s5, v, e5, d5, n5, _⟩ := deliver_cases B p.delivered
        (invoke B (Call.DispatchMessage m1) (invoke B (Call.TranslateMessage m1) s2).2).2
      obtain ⟨s1, e, ea, hlast, hd1, hn⟩ :=
        ih m1 s5 (by rw [d5]; simpa [invoke] using hd2) hm1 hpre'
      refine ⟨s1, ?_, ?_, ?_, hd1, ?_⟩
      · simp [message_loop, hm, e2, hr, e5, e]
      · simp [message_loop, hm, e2, hr, e5, ea, last_msg]
      · simpa [last_msg, hr] using hlast
      · rw [hn, n5]
        simp only [invoke]
        rw [n2]
        simp [invoke, step_entered, hr]

theorem count_cleanup_procedure (ms : List MSG) :
    (procedure_entered ms).count Fn.cleanup = ms.countP is_destroy := by
  induction ms with
  | nil => rfl
  | cons m ms ih =>
    simp only [procedure_entered] at ih
    by_cases h : m.message = WM_DESTROY <;>
      simp [procedure_entered, is_destroy, List.count_append, List.countP_cons, ih, h]

theorem count_render_procedure (ms : List MSG) :
    (procedure_entered ms).count Fn.render = 0 := by
  induction ms with
  | nil => rfl
  | cons m ms ih =>
    simp only [procedure_entered] at ih
    by_cases h : m.message = WM_DESTROY <;>
      simp [procedure_entered, List.count_append, ih, h]

theorem count_cleanup_steps (pre : List Poll) :
    (pre.flatMap step_entered).count Fn.cleanup =
      (pre.flatMap Poll.procedure_calls).countP is_destroy := by
  induction pre with
  | nil => rfl
  | cons p pre ih =>
    cases hr : p.retrieved <;>
      simp [step_entered, Poll.procedure_calls, hr, List.count_append, List.countP_append,
        count_cleanup_procedure, ih]

theorem count_render_steps (pre : List Poll) :
    (pre.flatMap step_entered).count Fn.render = pre.countP Poll.idle := by
  induction pre with
  | nil => rfl
  | cons p pre ih =>
    cases hr : p.retrieved <;>
      simp [step_entered, Poll.idle, hr, List.count_append, List.countP_cons,
        count_render_procedure, ih]

/-- C5, as stated, fails: two destroy messages retrieved and dispatched to the
window ahead of the quit message make WinMain invoke cleanup() twice (and
release every resource twice). -/
theorem cleanup_once_counterexample :
    (WinMain stub_backend 0
      [{ retrieved := some { hwnd := 7, message := WM_DESTROY },
         delivered := [{ hwnd := 7, message := WM_DESTROY }] },
       { retrieved := some { hwnd := 7, message := WM_DESTROY },
         delivered := [{ hwnd := 7, message := WM_DESTROY }] },
       { retrieved := some { message := WM_QUIT } }] (initial ())).map
      (fun r => (r.1, r.2.entered.count Fn.cleanup, r.2.log.countP Call.is_Release)) =
    some (some 0, 2, 6) := by
  rfl

/-- C5, amended: with a non-null device (both initialization steps succeeded),
for every script pre in which no quit message is retrieved, followed by an
iteration e that retrieves a quit message q and by anything else: the loop is
still running after pre and it exits on e; once q is retrieved the loop only
translates and dispatches q itself, so no further message is retrieved and
render() is not called, and whatever else is called then is called by the
window procedure (nothing at all when the system passes it no message in e);
cleanup() has run once for every destroy message the system passed to the
window procedure, and render() once for every idle iteration of pre. -/
theorem message_loop_exits_on_quit (B : Backend β) (pre post : List Poll) (e : Poll) (q : MSG)
    (s : State β) (hdev : s.g_pd3d_device ≠ 0) (he : e.retrieved = some q)
    (hq : q.message = WM_QUIT) (hpre : ∀ p ∈ pre, retrieves WM_QUIT p.retrieved = false) :
    ∃ s1 s' u v, message_loop B pre {} s = some (false, s1) ∧
      message_loop B (pre ++ e :: post) {} s = some (true, s') ∧
      s'.log = s1.log ++ (Call.PeekMessage 0 0 0 PM_REMOVE :: u) ++
        (Call.TranslateMessage q :: Call.DispatchMessage q :: v) ∧
      (∀ c ∈ u ++ v, c.of_msg_proc = true) ∧
      (e.sent = [] → u = []) ∧ (e.delivered = [] → v = []) ∧
      s'.entered = s1.entered ++ procedure_entered e.sent ++ procedure_entered e.delivered ∧
      s'.entered.count Fn.render = s.entered.count Fn.render + pre.countP Poll.idle ∧
      s'.entered.count Fn.cleanup = s.entered.count Fn.cleanup +
        ((pre ++ [e]).flatMap Poll.procedure_calls).countP is_destroy := by
  have h0 : ({} : MSG).message ≠ WM_QUIT := by decide
  obtain ⟨s1, e1, ea, hlast, hd1, hn⟩ := message_loop_run B (e :: post) pre {} s hdev h0 hpre
  obtain ⟨s2, u, e2, _, n2, l2, hu, hu0⟩ :=
    deliver_cases B e.sent (invoke B (Call.PeekMessage 0 0 0 PM_REMOVE) s1).2
  obtain ⟨s5, v, e5, _, n5, l5, hv, hv0⟩ := deliver_cases B e.delivered
    (invoke B (Call.DispatchMessage q) (invoke B (Call.TranslateMessage q) s2).2).2
  have hent : s5.entered =
      s1.entered ++ procedure_entered e.sent ++ procedure_entered e.delivered := by
    rw [n5]
    simp only [invoke]
    rw [n2]
    simp only [invoke]
  refine ⟨s1, s5, u, v, e1, ?_, ?_, ?_, hu0, hv0, hent, ?_, ?_⟩
  · rw [ea]
    simp [message_loop, hlast, e2, he, e5, message_loop_quit B post q s5 hq]
  · rw [l5]
    simp only [invoke]
    rw [l2]
    simp [invoke]
  · intro c hc
    rcases List.mem_append.mp hc with hc | hc
    · exact hu c hc
    · exact hv c hc
  · rw [hent, hn]
    simp [List.count_append, count_render_steps, count_render_procedure]
  · rw [hent, hn]
    simp [List.count_append, List.countP_append, count_cleanup_steps, count_cleanup_procedure,
      Poll.procedure_calls, he]

/-- Witness of C5: an idle iteration, one in which WM_CLOSE is retrieved and
DefWindowProc passes WM_DESTROY to the window procedure, then the quit
message, which reaches no window procedure. -/
theorem message_loop_exits_on_quit_witness :
    (ready ()).g_pd3d_device ≠ 0 ∧
    ∃ s', message_loop stub_backend ([idle_poll, close_poll] ++ quit_poll :: [idle_poll])
        {} (ready ()) = some (true, s') ∧
      s'.entered.count Fn.cleanup = 1 ∧ s'.entered.count Fn.render = 1 := by
  refine ⟨by decide, ?_⟩
  obtain ⟨_, s', _, _, _, e, _, _, _, _, _, h2, h1⟩ :=
    message_loop_exits_on_quit stub_backend [idle_poll, close_poll] [idle_poll] quit_poll
      { message := WM_QUIT } (ready ()) (by decide) rfl rfl (by decide)
  exact ⟨s', e, h1, h2⟩

/-! ## WinMain -/

theorem window_cases (B : Backend β) (hInst : Nat) (s : State β) :
    (WinMain_window B hInst s).2.entered = s.entered ∧
    ∃ calls, (WinMain_window B hInst s).2.log = s.log ++ calls ∧
      (∀ c ∈ calls, c.of_loop = false) ∧ (∃ c ∈ calls, c.is_CreateWindow = true) :=
  ⟨rfl, [Call.GetModuleHandle 0, Call.LoadIcon hInst icon_name,
      Call.RegisterClassEx CS_CLASSDC 0 0 (WinMain_window B hInst s).1.1
        (((B (B s.backend (Call.GetModuleHandle 0)).2 (Call.LoadIcon hInst icon_name)).1.ptr).getD 0)
        class_name,
      Call.CreateWindow class_name window_title WS_OVERLAPPEDWINDOW 100 100 300 300 0 0
        (WinMain_window B hInst s).1.1 0],
    by simp [WinMain_window, invoke], by simp [Call.of_loop], by simp [Call.is_CreateWindow]⟩

theorem init_vb_inv (B : Backend β) (s : State β) (hr : Int) (s' : State β)
    (h : init_vb B s = some (hr, s')) :
    s.g_pd3d_device ≠ 0 ∧ s'.g_pd3d_device = s.g_pd3d_device ∧
    s'.entered = s.entered ++ [Fn.init_vb] ∧
    ∃ calls, s'.log = s.log ++ calls ∧ ∀ c ∈ calls, c.of_loop = false := by
  by_cases hdev : s.g_pd3d_device = 0
  · simp [init_vb, deref, enter, hdev] at h
  · by_cases h1 : (B s.backend (buffer_call s.g_pd3d_device)).1.hr < 0
    · simp only [buffer_call] at h1
      simp [init_vb, invoke, enter, deref, hdev, h1, FAILED] at h
      obtain ⟨_, rfl⟩ := h
      exact ⟨hdev, rfl, rfl, [buffer_call s.g_pd3d_device], by simp [buffer_call],
        by simp [Call.of_loop, buffer_call]⟩
    · by_cases hvb : buffer_ptr B s = 0
      · simp only [buffer_call] at h1
        simp only [buffer_ptr, buffer_call] at hvb
        simp [init_vb, invoke, enter, deref, hdev, h1, hvb, FAILED] at h
      · by_cases h2 : lock_hr B s < 0
        · simp only [buffer_call] at h1
          simp only [buffer_ptr, buffer_call] at hvb
          simp only [lock_hr, lock_call, buffer_ptr, buffer_call] at h2
          simp [init_vb, invoke, enter, deref, hdev, h1, hvb, h2, FAILED] at h
          obtain ⟨_, rfl⟩ := h
          exact ⟨hdev, rfl, rfl, [buffer_call s.g_pd3d_device, lock_call (buffer_ptr B s)],
            by simp [buffer_call, lock_call, buffer_ptr],
            by simp [Call.of_loop, buffer_call, lock_call]⟩
        · by_cases hp : lock_ptr B s = 0
          · simp only [buffer_call] at h1
            simp only [buffer_ptr, buffer_call] at hvb
            simp only [lock_hr, lock_call, buffer_ptr, buffer_call] at h2
            simp only [lock_ptr, lock_call, buffer_ptr, buffer_call] at hp
            simp [init_vb, invoke, enter, deref, hdev, h1, hvb, h2, hp, FAILED] at h
          · simp only [buffer_call] at h1
            simp only [buffer_ptr, buffer_call] at hvb
            simp only [lock_hr, lock_call, buffer_ptr, buffer_call] at h2
            simp only [lock_ptr, lock_call, buffer_ptr, buffer_call] at hp
            simp [init_vb, invoke, enter, deref, hdev, h1, hvb, h2, hp, FAILED] at h
            obtain ⟨_, rfl⟩ := h
            exact ⟨hdev, rfl, rfl, [buffer_call s.g_pd3d_device, lock_call (buffer_ptr B s),
                Call.memcpy (lock_ptr B s) vertices sizeof_vertices, Call.Unlock (buffer_ptr B s)],
              by simp [buffer_call, lock_call, buffer_ptr, lock_ptr],
              by simp [Call.of_loop, buffer_call, lock_call]⟩

theorem init_d3_d_inv (B : Backend β) (hWnd : Nat) (s : State β) (hr : Int) (s' : State β)
    (h : init_d3_d B hWnd s = some (hr, s')) :
    s'.entered = s.entered ++ [Fn.init_d3_d] ∧
    ∃ calls, s'.log = s.log ++ calls ∧ ∀ c ∈ calls, c.of_loop = false := by
  obtain ⟨hr0, s0, e, hn, _, _, hc | hc | hc⟩ := init_d3_d_cases B hWnd s
  · rw [e] at h
    cases h
    exact ⟨hn, _, hc.2.2, by simp [Call.of_loop]⟩
  · rw [e] at h
    cases h
    exact ⟨hn, _, hc.2.2.2, by simp [Call.of_loop, device_call]⟩
  · rw [e] at h
    cases h
    exact ⟨hn, _, hc.2.2.2.1, by simp [Call.of_loop, device_call]⟩

theorem WinMain_d3d_failed (B : Backend β) (hInst : Nat) (script : List Poll)
    (s : State β) (hr1 : Int) (s1 : State β)
    (h1 : init_d3_d B (WinMain_window B hInst s).1.2 (WinMain_window B hInst s).2 = some (hr1, s1))
    (hf : hr1 < 0) :
    ∃ s' calls, WinMain B hInst script s = some (some 0, s') ∧
      s'.entered = s.entered ++ [Fn.init_d3_d] ∧ s'.log = s.log ++ calls ∧
      (∀ c ∈ calls, c.of_loop = false) ∧ (∃ c ∈ calls, c.is_CreateWindow = true) := by
  obtain ⟨hn, c1, hl1, hc1⟩ := init_d3_d_inv B _ _ hr1 s1 h1
  obtain ⟨wn, wc, wl, wo, c0, wm, wk⟩ := window_cases B hInst s
  refine ⟨(invoke B (Call.UnregisterClass class_name (WinMain_window B hInst s).1.1) s1).2,
    wc ++ (c1 ++ [Call.UnregisterClass class_name (WinMain_window B hInst s).1.1]), ?_, ?_, ?_, ?_, ?_⟩
  · simp [WinMain, h1, SUCCEEDED, not_le.mpr hf, WinMain_exit]
  · simp only [invoke]
    rw [hn, wn]
  · simp only [invoke]
    rw [hl1, wl]
    simp only [List.append_assoc]
  · intro c hc
    simp only [List.mem_append, List.mem_cons, List.mem_singleton, List.not_mem_nil,
      or_false] at hc
    rcases hc with hc | hc | hc
    · exact wo c hc
    · exact hc1 c hc
    · subst hc; rfl
  · exact ⟨c0, by simp [wm], wk⟩

theorem WinMain_vb_failed (B : Backend β) (hInst : Nat) (script : List Poll)
    (s : State β) (hr1 : Int) (s1 : State β)
    (h1 : init_d3_d B (WinMain_window B hInst s).1.2 (WinMain_window B hInst s).2 = some (hr1, s1))
    (hs : 0 ≤ hr1) (hr2 : Int) (s2 : State β) (h2 : init_vb B s1 = some (hr2, s2))
    (hf : hr2 < 0) :
    ∃ s' calls, WinMain B hInst script s = some (some 0, s') ∧
      s'.entered = s.entered ++ [Fn.init_d3_d, Fn.init_vb] ∧ s'.log = s.log ++ calls ∧
      (∀ c ∈ calls, c.of_loop = false) ∧ (∃ c ∈ calls, c.is_CreateWindow = true) := by
  obtain ⟨hn, c1, hl1, hc1⟩ := init_d3_d_inv B _ _ hr1 s1 h1
  obtain ⟨_, _, hn2, c2, hl2, hc2⟩ := init_vb_inv B s1 hr2 s2 h2
  obtain ⟨wn, wc, wl, wo, c0, wm, wk⟩ := window_cases B hInst s
  refine ⟨(invoke B (Call.UnregisterClass class_name (WinMain_window B hInst s).1.1) s2).2,
    wc ++ (c1 ++ (c2 ++ [Call.UnregisterClass class_name (WinMain_window B hInst s).1.1])),
    ?_, ?_, ?_, ?_, ?_⟩
  · simp [WinMain, h1, h2, SUCCEEDED, hs, not_le.mpr hf, WinMain_exit]
  · simp only [invoke]
    rw [hn2, hn, wn]
    simp
  · simp only [invoke]
    rw [hl2, hl1, wl]
    simp only [List.append_assoc]
  · intro c hc
    simp only [List.mem_append, List.mem_cons, List.mem_singleton, List.not_mem_nil,
      or_false] at hc
    rcases hc with hc | hc | hc | hc
    · exact wo c hc
    · exact hc1 c hc
    · exact hc2 c hc
    · subst hc; rfl
  · exact ⟨c0, by simp [wm], wk⟩

theorem WinMain_both_ok (B : Backend β) (hInst : Nat) (script : List Poll)
    (s : State β) (hr1 : Int) (s1 : State β)
    (h1 : init_d3_d B (WinMain_window B hInst s).1.2 (WinMain_window B hInst s).2 = some (hr1, s1))
    (hs : 0 ≤ hr1) (hr2 : Int) (s2 : State β) (h2 : init_vb B s1 = some (hr2, s2))
    (hs2 : 0 ≤ hr2) :
    ∃ r s', WinMain B hInst script s = some (r, s') ∧
      (s.entered ++ [Fn.init_d3_d, Fn.init_vb, Fn.message_loop]) <+: s'.entered ∧
      (s2.log ++ [Call.ShowWindow (WinMain_window B hInst s).1.2 SW_SHOWDEFAULT,
        Call.UpdateWindow (WinMain_window B hInst s).1.2]) <+: s'.log ∧
      (script ≠ [] →
        (s2.log ++ [Call.ShowWindow (WinMain_window B hInst s).1.2 SW_SHOWDEFAULT,
          Call.UpdateWindow (WinMain_window B hInst s).1.2,
          Call.PeekMessage 0 0 0 PM_REMOVE]) <+: s'.log) ∧
      (WinMain_window B hInst s).2.log <+: s'.log := by
  obtain ⟨hn, c1, hl1, _⟩ := init_d3_d_inv B _ _ hr1 s1 h1
  obtain ⟨hd1, hd2, hn2, c2, hl2, _⟩ := init_vb_inv B s1 hr2 s2 h2
  obtain ⟨wn, _, _⟩ := window_cases B hInst s
  have h0 : ({} : MSG).message ≠ WM_QUIT := by decide
  obtain ⟨l, e, ln, ll, lp⟩ := message_loop_total B script {}
    (enter Fn.message_loop (invoke B (Call.UpdateWindow (WinMain_window B hInst s).1.2)
      (invoke B (Call.ShowWindow (WinMain_window B hInst s).1.2 SW_SHOWDEFAULT) s2).2).2)
    (by simpa [enter, invoke, hd2] using hd1)
  have ln' : (s.entered ++ [Fn.init_d3_d, Fn.init_vb, Fn.message_loop]) <+: l.2.entered := by
    refine List.IsPrefix.trans ?_ ln
    simp [enter, invoke, hn2, hn, wn]
  have ll' : (s2.log ++ [Call.ShowWindow (WinMain_window B hInst s).1.2 SW_SHOWDEFAULT,
      Call.UpdateWindow (WinMain_window B hInst s).1.2]) <+: l.2.log := by
    refine List.IsPrefix.trans ?_ ll
    simp [enter, invoke]
  have lp' : script ≠ [] →
      (s2.log ++ [Call.ShowWindow (WinMain_window B hInst s).1.2 SW_SHOWDEFAULT,
        Call.UpdateWindow (WinMain_window B hInst s).1.2,
        Call.PeekMessage 0 0 0 PM_REMOVE]) <+: l.2.log := by
    intro hne
    refine List.IsPrefix.trans ?_ (lp h0 hne)
    simp [enter, invoke]
  have lw : (WinMain_window B hInst s).2.log <+: l.2.log := by
    refine List.IsPrefix.trans ?_ ll'
    rw [hl2, hl1]
    simp only [List.append_assoc]
    exact List.prefix_append _ _
  by_cases hl : l.1 = true
  · refine ⟨some 0, (invoke B (Call.UnregisterClass class_name (WinMain_window B hInst s).1.1)
      l.2).2, ?_, ?_, ?_, ?_, ?_⟩
    · simp [WinMain, h1, h2, SUCCEEDED, hs, hs2, e, hl, WinMain_exit]
    · exact ln'
    · exact List.IsPrefix.trans ll' (by simp [invoke])
    · exact fun hne => List.IsPrefix.trans (lp' hne) (by simp [invoke])
    · exact List.IsPrefix.trans lw (by simp [invoke])
  · refine ⟨none, l.2, ?_, ln', ll', lp', lw⟩
    simp [WinMain, h1, h2, SUCCEEDED, hs, hs2, e, hl]

theorem succeeds_contract (B : Backend β) (hB : Succeeds B) : Contract B :=
  fun b c _ _ => (hB b c).2

theorem show_window_of_loop (c : Call) (h : c.is_ShowWindow = true) : c.of_loop = true := by
  cases c <;> simp_all [Call.is_ShowWindow, Call.of_loop]

/-- C2: with a backend in which every call succeeds, init_d3_d, then init_vb,
then one render all return, and the calls recorded are exactly create-factory,
create-device, create-buffer (60 bytes), lock, memory copy of 60 bytes, unlock,
clear, begin-scene, set-stream-source, set-format,
draw-primitive(triangle-list, 0, 1), end-scene, present. -/
theorem startup_then_render_calls (B : Backend β) (hWnd : Nat) (s : State β)
    (hB : Succeeds B) :
    ∃ s1 s2 s3 d3d dev vb p,
      init_d3_d B hWnd s = some (S_OK, s1) ∧ init_vb B s1 = some (S_OK, s2) ∧
      render B s2 = some s3 ∧
      s3.log = s.log ++
        [Call.Direct3DCreate9 D3D_SDK_VERSION,
         Call.CreateDevice d3d D3DADAPTER_DEFAULT D3DDEVTYPE_HAL hWnd
           D3DCREATE_SOFTWARE_VERTEXPROCESSING
           { Windowed := TRUE, SwapEffect := D3DSWAPEFFECT_DISCARD,
             BackBufferFormat := D3DFMT_UNKNOWN },
         Call.CreateVertexBuffer dev 60 0 D3DFVF_CUSTOMVERTEX D3DPOOL_DEFAULT 0,
         Call.Lock vb 0 60 0,
         Call.memcpy p vertices 60,
         Call.Unlock vb,
         Call.Clear dev 0 0 D3DCLEAR_TARGET (D3DCOLOR_XRGB 0 0 255) f_1_0 0,
         Call.BeginScene dev,
         Call.SetStreamSource dev 0 vb 0 20,
         Call.SetFVF dev D3DFVF_CUSTOMVERTEX,
         Call.DrawPrimitive dev D3DPT_TRIANGLELIST 0 1,
         Call.EndScene dev,
         Call.Present dev 0 0 0 0] := by
  have hC := succeeds_contract B hB
  have k1 : sizeof_CUSTOMVERTEX = 20 := by decide
  have k2 : sizeof_vertices = 60 := by decide
  obtain ⟨hr1, s1, e1, _, _, _, h | h | h⟩ := init_d3_d_cases B hWnd s
  · exfalso
    obtain ⟨p, hp, hp0⟩ := (hB s.backend (Call.Direct3DCreate9 D3D_SDK_VERSION)).2
    have := h.1
    simp only [factory_ptr] at this
    rw [hp] at this
    exact hp0 (by simpa using this)
  · exfalso
    have := (hB (B s.backend (Call.Direct3DCreate9 D3D_SDK_VERSION)).2
      (device_call (factory_ptr B s) hWnd)).1
    have h2 := h.2.1
    simp only [device_hr] at h2
    omega
  · obtain ⟨_, _, hr1e, l1, d1⟩ := h
    subst hr1e
    have hdev := d1 hC
    obtain ⟨hr2, s2, e2, _, d2, _, v2, h | h | h⟩ := init_vb_cases B s1 hdev hC
    · exfalso
      have := (hB s1.backend (buffer_call s1.g_pd3d_device)).1
      have h2 := h.1
      simp only [buffer_hr] at h2
      omega
    · exfalso
      have := (hB (B s1.backend (buffer_call s1.g_pd3d_device)).2
        (lock_call (buffer_ptr B s1))).1
      have h2 := h.2.1
      simp only [lock_hr] at h2
      omega
    · obtain ⟨_, _, hr2e, l2⟩ := h
      subst hr2e
      obtain ⟨s3, e3, _, _, _, _, l3⟩ := render_cases B s2 (by rw [d2]; exact hdev)
      have hb : SUCCEEDED (begin_scene_hr B s2) = true := by
        have := (hB (B s2.backend (clear_call s2.g_pd3d_device)).2
          (Call.BeginScene s2.g_pd3d_device)).1
        simpa [SUCCEEDED, begin_scene_hr] using this
      refine ⟨s1, s2, s3, factory_ptr B s, s1.g_pd3d_device, buffer_ptr B s1, lock_ptr B s1,
        e1, e2, e3, ?_⟩
      rw [l3, l2, l1, hb, d2, v2]
      simp [render_calls, device_call, buffer_call, lock_call, clear_call, k1, k2]

/-- Witness of C2: the stub backend, from the start of the process. -/
theorem startup_then_render_calls_witness :
    Succeeds stub_backend ∧
    ∃ s1 s2 s3, init_d3_d stub_backend 5 (initial ()) = some (S_OK, s1) ∧
      init_vb stub_backend s1 = some (S_OK, s2) ∧ render stub_backend s2 = some s3 ∧
      s3.log.length = 13 := by
  have hS : Succeeds stub_backend := fun _ _ => ⟨le_refl (0 : Int), 7, rfl, by decide⟩
  refine ⟨hS, ?_⟩
  obtain ⟨s1, s2, s3, _, _, _, _, e1, e2, e3, hl⟩ :=
    startup_then_render_calls stub_backend 5 (initial ()) hS
  exact ⟨s1, s2, s3, e1, e2, e3, by rw [hl]; rfl⟩

/-- C6: in WinMain, whatever init_d3_d returns: if it fails, WinMain returns 0
having entered no other function (init_vb, the message loop, render and
msg_proc are never entered) and having made no call of the loop; if it
succeeds and init_vb fails, WinMain returns 0 having entered only init_d3_d and
init_vb, again with no call of the loop; if both succeed the window is shown
and the message loop is entered, and with a non-empty script PeekMessage is
called. -/
theorem WinMain_gates_on_initialization (B : Backend β) (hInst : Nat)
    (script : List Poll) (s : State β) (hr1 : Int) (s1 : State β)
    (h1 : init_d3_d B (WinMain_window B hInst s).1.2 (WinMain_window B hInst s).2 =
      some (hr1, s1)) :
    (FAILED hr1 = true →
      ∃ s' calls, WinMain B hInst script s = some (some 0, s') ∧
        s'.entered = s.entered ++ [Fn.init_d3_d] ∧ s'.log = s.log ++ calls ∧
        ∀ c ∈ calls, c.of_loop = false) ∧
    (SUCCEEDED hr1 = true → ∀ hr2 s2, init_vb B s1 = some (hr2, s2) →
      (FAILED hr2 = true →
        ∃ s' calls, WinMain B hInst script s = some (some 0, s') ∧
          s'.entered = s.entered ++ [Fn.init_d3_d, Fn.init_vb] ∧ s'.log = s.log ++ calls ∧
          ∀ c ∈ calls, c.of_loop = false) ∧
      (SUCCEEDED hr2 = true →
        ∃ r s', WinMain B hInst script s = some (r, s') ∧
          (s.entered ++ [Fn.init_d3_d, Fn.init_vb, Fn.message_loop]) <+: s'.entered ∧
          (s2.log ++ [Call.ShowWindow (WinMain_window B hInst s).1.2 SW_SHOWDEFAULT,
            Call.UpdateWindow (WinMain_window B hInst s).1.2]) <+: s'.log ∧
          (script ≠ [] →
            (s2.log ++ [Call.ShowWindow (WinMain_window B hInst s).1.2 SW_SHOWDEFAULT,
              Call.UpdateWindow (WinMain_window B hInst s).1.2,
              Call.PeekMessage 0 0 0 PM_REMOVE]) <+: s'.log))) := by
  refine ⟨?_, ?_⟩
  · intro hf
    obtain ⟨s', calls, e, hn, hl, hc, _⟩ :=
      WinMain_d3d_failed B hInst script s hr1 s1 h1 (by simpa [FAILED] using hf)
    exact ⟨s', calls, e, hn, hl, hc⟩
  · intro hs hr2 s2 h2
    have hs' : 0 ≤ hr1 := by simpa [SUCCEEDED] using hs
    refine ⟨?_, ?_⟩
    · intro hf
      obtain ⟨s', calls, e, hn, hl, hc, _⟩ :=
        WinMain_vb_failed B hInst script s hr1 s1 h1 hs' hr2 s2 h2 (by simpa [FAILED] using hf)
      exact ⟨s', calls, e, hn, hl, hc⟩
    · intro hs2
      obtain ⟨r, s', e, hn, hl, hp, _⟩ :=
        WinMain_both_ok B hInst script s hr1 s1 h1 hs' hr2 s2 h2 (by simpa [SUCCEEDED] using hs2)
      exact ⟨r, s', e, hn, hl, hp⟩

/-- Witness of C6: Direct3DCreate9 returns nullptr, so init_d3_d fails. -/
theorem WinMain_gates_on_initialization_witness :
    ∃ s', WinMain null_backend 0 [idle_poll] (initial ()) = some (some 0, s') ∧
      s'.entered = [Fn.init_d3_d] := by
  obtain ⟨hr1, s1, e1, _, _, _, hc⟩ := init_d3_d_cases null_backend
    (WinMain_window null_backend 0 (initial ())).1.2 (WinMain_window null_backend 0 (initial ())).2
  have hf : FAILED hr1 = true := by
    rcases hc with hc | hc | hc
    · rw [hc.2.1]; rfl
    · rw [hc.2.2.1]; rfl
    · exact absurd rfl hc.1
  obtain ⟨s', _, e, hn, _⟩ :=
    (WinMain_gates_on_initialization null_backend 0 [idle_poll] (initial ()) hr1 s1 e1).1 hf
  exact ⟨s', e, hn⟩

/-- C10, as stated, fails: there is no outcome in which init_d3_d or init_vb
reports failure and WinMain still calls ShowWindow and enters the message
loop. -/
theorem window_shown_after_failure_counterexample :
    ¬ ∃ (β : Type) (B : Backend β) (hInst : Nat) (script : List Poll) (b : β)
        (hr1 : Int) (s1 : State β) (r : Option Int × State β),
      init_d3_d B (WinMain_window B hInst (initial b)).1.2 (WinMain_window B hInst (initial b)).2 =
        some (hr1, s1) ∧
      (FAILED hr1 = true ∨ ∃ hr2 s2, init_vb B s1 = some (hr2, s2) ∧ FAILED hr2 = true) ∧
      WinMain B hInst script (initial b) = some r ∧
      (∃ c ∈ r.2.log, c.is_ShowWindow = true) ∧ Fn.message_loop ∈ r.2.entered := by
  rintro ⟨β, B, hInst, script, b, hr1, s1, r, h1, hfail, hw, _, hm⟩
  by_cases hf : hr1 < 0
  · obtain ⟨s', _, e, hn, _⟩ := WinMain_d3d_failed B hInst script (initial b) hr1 s1 h1 hf
    rw [e] at hw
    cases hw
    rw [hn] at hm
    simp [initial] at hm
  · rcases hfail with h | ⟨hr2, s2, h2, hf2⟩
    · exact hf (by simpa [FAILED] using h)
    · obtain ⟨s', _, e, hn, _⟩ := WinMain_vb_failed B hInst script (initial b) hr1 s1 h1
        (not_lt.mp hf) hr2 s2 h2 (by simpa [FAILED] using hf2)
      rw [e] at hw
      cases hw
      rw [hn] at hm
      simp [initial] at hm

/-- C10, amended: with a backend that honours the API contract WinMain always
runs and creates the window on every path, but it calls ShowWindow or enters
the message loop only when both init_d3_d and init_vb have reported success. -/
theorem window_shown_only_after_initialization (B : Backend β) (hInst : Nat)
    (script : List Poll) (s : State β) (hB : Contract B) :
    ∃ r calls new, WinMain B hInst script s = some r ∧
      r.2.log = s.log ++ calls ∧ r.2.entered = s.entered ++ new ∧
      (∃ c ∈ calls, c.is_CreateWindow = true) ∧
      (((∃ c ∈ calls, c.is_ShowWindow = true) ∨ Fn.message_loop ∈ new) →
        ∃ hr1 s1 hr2 s2,
          init_d3_d B (WinMain_window B hInst s).1.2 (WinMain_window B hInst s).2 =
            some (hr1, s1) ∧ SUCCEEDED hr1 = true ∧
          init_vb B s1 = some (hr2, s2) ∧ SUCCEEDED hr2 = true) := by
  obtain ⟨hr1, s1, e1, _, _, _, hc⟩ := init_d3_d_cases B
    (WinMain_window B hInst s).1.2 (WinMain_window B hInst s).2
  by_cases hf : hr1 < 0
  · obtain ⟨s', calls, e, hn, hl, ho, hw⟩ := WinMain_d3d_failed B hInst script s hr1 s1 e1 hf
    refine ⟨_, calls, _, e, hl, hn, hw, ?_⟩
    rintro (⟨c, hc, hs⟩ | hm)
    · have := ho c hc
      rw [show_window_of_loop c hs] at this
      cases this
    · simp at hm
  · have hdev : s1.g_pd3d_device ≠ 0 := by
      rcases hc with hc | hc | hc
      · exact absurd (by rw [hc.2.1]; decide) hf
      · exact absurd (by rw [hc.2.2.1]; decide) hf
      · exact hc.2.2.2.2 hB
    obtain ⟨hr2, s2, e2, _⟩ := init_vb_cases B s1 hdev hB
    by_cases hf2 : hr2 < 0
    · obtain ⟨s', calls, e, hn, hl, ho, hw⟩ :=
        WinMain_vb_failed B hInst script s hr1 s1 e1 (not_lt.mp hf) hr2 s2 e2 hf2
      refine ⟨_, calls, _, e, hl, hn, hw, ?_⟩
      rintro (⟨c, hc, hs⟩ | hm)
      · have := ho c hc
        rw [show_window_of_loop c hs] at this
        cases this
      · simp at hm
    · obtain ⟨r, s', e, ⟨t1, hn⟩, _, _, ⟨t2, hl⟩⟩ :=
        WinMain_both_ok B hInst script s hr1 s1 e1 (not_lt.mp hf) hr2 s2 e2 (not_lt.mp hf2)
      obtain ⟨_, wc, wl, _, c0, wm, wk⟩ := window_cases B hInst s
      refine ⟨_, wc ++ t2, [Fn.init_d3_d, Fn.init_vb, Fn.message_loop] ++ t1, e, ?_, ?_,
        ⟨c0, by simp [wm], wk⟩, ?_⟩
      · rw [← hl, wl]
        simp
      · rw [← hn]
        simp
      · intro _
        exact ⟨hr1, s1, hr2, s2, e1, by simpa [SUCCEEDED] using hf, e2,
          by simpa [SUCCEEDED] using hf2⟩

/-- Witness of C10: the stub backend, with a script that ends the loop. -/
theorem window_shown_only_after_initialization_witness :
    Contract stub_backend ∧
    ∃ r, WinMain stub_backend 0 [quit_poll] (initial ()) = some r ∧
      ∃ c ∈ r.2.log, c.is_CreateWindow = true := by
  refine ⟨stub_backend_contract, ?_⟩
  obtain ⟨r, calls, _, e, hl, _, ⟨c, hc, hk⟩, _⟩ :=
    window_shown_only_after_initialization stub_backend 0 [quit_poll]
      (initial ()) stub_backend_contract
  exact ⟨r, e, c, by rw [hl]; exact List.mem_append_right _ hc, hk⟩

end Vertices
